import Mathlib

/-!
Verification of the note service backend (src/app/backend/app.py).

The service is a set of stateless HTTP handlers over a single `notes`
table.  We embed the table as a list of rows plus the next SERIAL id,
JSON request bodies as association lists from keys to string values,
and each handler as a pure function from the database state (and the
request) to a result record.  Timestamps are natural numbers; the
current time (`CURRENT_TIMESTAMP`) is passed as an explicit `now`
argument.  The result records carry resource-tracking flags
(`connOpened`, `connClosed`, `sqlExecuted`, `committed`) mirroring the
points in the Python handlers where `get_db_connection()`,
`conn.close()`, `cur.execute(...)` and `conn.commit()` are called.
-/

/-- A stored row of the `notes` table. -/
structure Note where
  id : Nat
  title : String
  content : String
  category : String
  created_at : Nat
  updated_at : Nat
deriving DecidableEq

/-- Database state: the stored rows plus the next SERIAL id to assign. -/
structure DB where
  notes : List Note
  nextId : Nat
deriving DecidableEq

/-- Well-formedness: every stored id is below the next SERIAL value. -/
def DB.WF (db : DB) : Prop := ∀ n ∈ db.notes, n.id < db.nextId

/-- A JSON object body: an association list from keys to string values. -/
abbrev JsonObj := List (String × String)

/-- Key lookup in a JSON object (Python: membership test and subscript). -/
def jsonGet (d : JsonObj) (k : String) : Option String :=
  (d.find? (fun p => p.1 == k)).map (fun p => p.2)

/-- Python truthiness of `data` for an optional JSON object:
`None` and the empty dict are falsy. -/
def truthyObj : Option JsonObj → Bool
  | none => false
  | some d => !d.isEmpty

/-- The ORDER BY created_at DESC ordering: newest first. -/
def byNewest (a b : Note) : Prop := b.created_at ≤ a.created_at

instance : DecidableRel byNewest :=
  fun a b => inferInstanceAs (Decidable (b.created_at ≤ a.created_at))

instance : IsTotal Note byNewest :=
  ⟨fun a b => Nat.le_total b.created_at a.created_at⟩

instance : IsTrans Note byNewest :=
  ⟨fun _ _ _ h1 h2 => Nat.le_trans h2 h1⟩

/-- GET /api/notes: `category = request.args.get('category')`; when the
parameter is truthy the rows are filtered by exact category match, and
the result is ordered by `created_at` descending. -/
def get_notes (db : DB) (category : Option String) : List Note :=
  let rows :=
    match category with
    | some c => if c ≠ "" then db.notes.filter (fun (n : Note) => n.category == c) else db.notes
    | none => db.notes
  rows.insertionSort byNewest

/-- Outcome of GET /api/notes/id. -/
structure GetResult where
  status : Nat
  note : Option Note
deriving DecidableEq

/-- GET /api/notes/id: SELECT ... WHERE id = note_id, 404 when no row. -/
def get_note (db : DB) (note_id : Nat) : GetResult :=
  match db.notes.find? (fun n => n.id == note_id) with
  | some n => { status := 200, note := some n }
  | none => { status := 404, note := none }

/-- Outcome of POST /api/notes: status, returned id, resulting database
state, and whether the handler opened a database connection. -/
structure CreateResult where
  status : Nat
  noteId : Option Nat
  db : DB
  connOpened : Bool
deriving DecidableEq

/-- POST /api/notes: reject (400, before any database call) unless the
body is truthy and has both the title and the content keys; otherwise
INSERT with category defaulting to "general", the database assigning
the id and both timestamps. -/
def create_note (db : DB) (now : Nat) (data : Option JsonObj) : CreateResult :=
  let d := data.getD []
  if !truthyObj data || (jsonGet d "title").isNone || (jsonGet d "content").isNone then
    { status := 400, noteId := none, db := db, connOpened := false }
  else
    let note : Note :=
      { id := db.nextId
        title := (jsonGet d "title").getD ""
        content := (jsonGet d "content").getD ""
        category := (jsonGet d "category").getD "general"
        created_at := now
        updated_at := now }
    { status := 201, noteId := some db.nextId
      db := { notes := db.notes ++ [note], nextId := db.nextId + 1 }
      connOpened := true }

/-- Outcome of PUT /api/notes/id, with resource-tracking flags:
whether a connection was opened (`get_db_connection()` reached),
whether it was closed before returning (`conn.close()` on that path),
whether any SQL statement was executed, and whether a commit happened. -/
structure UpdateResult where
  status : Nat
  db : DB
  connOpened : Bool
  connClosed : Bool
  sqlExecuted : Bool
  committed : Bool
deriving DecidableEq

/-- Whether the body has at least one recognized update field
(the dynamically built `update_fields` list is nonempty). -/
def hasUpdateField (d : JsonObj) : Bool :=
  (jsonGet d "title").isSome || (jsonGet d "content").isSome || (jsonGet d "category").isSome

/-- The dynamically built SET clause applied to one row: each supplied
field overwrites, each unsupplied field is kept, and
`updated_at = CURRENT_TIMESTAMP` is always appended. -/
def applySet (d : JsonObj) (now : Nat) (n : Note) : Note :=
  { n with
    title := (jsonGet d "title").getD n.title
    content := (jsonGet d "content").getD n.content
    category := (jsonGet d "category").getD n.category
    updated_at := now }

/-- PUT /api/notes/id, following the Python control flow: `if not data`
returns 400 before the connection is opened; the connection is then
opened, and the no-valid-fields 400 returns without closing it; the
UPDATE is executed, and rowcount 0 yields 404 with close but no commit;
otherwise the update is committed and the connection closed. -/
def update_note (db : DB) (now : Nat) (note_id : Nat) (data : Option JsonObj) : UpdateResult :=
  if !truthyObj data then
    { status := 400, db := db, connOpened := false, connClosed := false
      sqlExecuted := false, committed := false }
  else
    let d := data.getD []
    if !hasUpdateField d then
      { status := 400, db := db, connOpened := true, connClosed := false
        sqlExecuted := false, committed := false }
    else
      if db.notes.countP (fun n => n.id == note_id) == 0 then
        { status := 404, db := db, connOpened := true, connClosed := true
          sqlExecuted := true, committed := false }
      else
        { status := 200
          db := { db with
                  notes := db.notes.map (fun n => if n.id == note_id then applySet d now n else n) }
          connOpened := true, connClosed := true
          sqlExecuted := true, committed := true }

/-- GET /api/stats: COUNT(*) and SELECT category, COUNT(*) GROUP BY category. -/
def get_stats (db : DB) : Nat × List (String × Nat) :=
  let cats := db.notes.map (fun n => n.category)
  (db.notes.length, cats.dedup.map (fun c => (c, cats.count c)))

/-- A concrete stored row used by the witnesses below. -/
def noteA : Note :=
  { id := 1, title := "T", content := "C", category := "a", created_at := 3, updated_at := 3 }

/-- A concrete database state with one row, used by the witnesses below. -/
def dbW : DB := { notes := [noteA], nextId := 2 }

/-- A nonempty JSON body is truthy. -/
theorem truthyObj_of_ne_nil {d : JsonObj} (hd : d ≠ []) : truthyObj (some d) = true := by
  cases d with
  | nil => exact absurd rfl hd
  | cons a l => rfl

/-- A body with a successful key lookup is nonempty. -/
theorem ne_nil_of_jsonGet {d : JsonObj} {k : String} {v : String}
    (h : jsonGet d k = some v) : d ≠ [] := by
  intro hnil
  rw [hnil] at h
  simp [jsonGet] at h

/-- C10: a list request whose category query parameter is present but equal to the
empty string behaves as if no filter were given: the handler tests the parameter
for truthiness, so it returns all stored notes (sorted newest first), not the
subset whose category equals the empty string. -/
theorem get_notes_blank_category (db : DB) :
    get_notes db (some "") = get_notes db none ∧
    (get_notes db (some "")).Perm db.notes := by
  constructor
  · rfl
  · exact List.perm_insertionSort byNewest db.notes

/-- C3: a create request missing the title key or the content key (including the
no-body case, where every lookup fails) is rejected with 400 before any database
call, and the stored notes are unchanged. -/
theorem create_note_missing_required (db : DB) (now : Nat) (data : Option JsonObj)
    (h : jsonGet (data.getD []) "title" = none ∨ jsonGet (data.getD []) "content" = none) :
    (create_note db now data).status = 400 ∧
    (create_note db now data).connOpened = false ∧
    (create_note db now data).db = db := by
  unfold create_note
  rcases h with h | h <;> simp [h]

/-- C3 witness at a concrete input: body with title only. -/
theorem create_note_missing_required_witness :
    (jsonGet ((some [("title", "T")] : Option JsonObj).getD []) "content" = none) ∧
    ((create_note dbW 10 (some [("title", "T")])).status = 400 ∧
     (create_note dbW 10 (some [("title", "T")])).connOpened = false ∧
     (create_note dbW 10 (some [("title", "T")])).db = dbW) :=
  ⟨by decide, create_note_missing_required dbW 10 (some [("title", "T")]) (Or.inr (by decide))⟩

/-- C9: an update request that passes body validation but targets an id with no
matching stored note yields 404, performs no commit, and leaves the state
unchanged. -/
theorem update_note_not_found (db : DB) (now note_id : Nat) (d : JsonObj)
    (hd : d ≠ []) (hf : hasUpdateField d = true)
    (hno : ∀ n ∈ db.notes, n.id ≠ note_id) :
    (update_note db now note_id (some d)).status = 404 ∧
    (update_note db now note_id (some d)).committed = false ∧
    (update_note db now note_id (some d)).db = db := by
  unfold update_note
  have h2 : db.notes.countP (fun n => n.id == note_id) = 0 := by
    rw [List.countP_eq_zero]
    intro n hn
    simp only [beq_iff_eq]
    exact hno n hn
  simp [truthyObj_of_ne_nil hd, hf, h2]

/-- C9 witness at a concrete input: id 5 matches no stored note. -/
theorem update_note_not_found_witness :
    (([("title", "x")] : JsonObj) ≠ [] ∧ hasUpdateField [("title", "x")] = true ∧
     ∀ n ∈ dbW.notes, n.id ≠ 5) ∧
    ((update_note dbW 10 5 (some [("title", "x")])).status = 404 ∧
     (update_note dbW 10 5 (some [("title", "x")])).committed = false ∧
     (update_note dbW 10 5 (some [("title", "x")])).db = dbW) :=
  ⟨⟨by decide, by decide, by decide⟩,
   update_note_not_found dbW 10 5 [("title", "x")] (by decide) (by decide) (by decide)⟩

/-- C6 counterexample: at a concrete request whose body has no recognized field,
the handler does answer 400, but a database connection has already been opened
when the check runs, refuting the claim that no connection is needed. -/
theorem update_note_no_fields_cex :
    (update_note dbW 10 1 (some [("foo", "bar")])).status = 400 ∧
    (update_note dbW 10 1 (some [("foo", "bar")])).connOpened = true := by decide

/-- C6 amended: an update request whose body is present but contains none of the
recognized fields is answered 400 before any SQL statement is executed and
leaves the state unchanged, but the handler has already opened a database
connection when this check runs. -/
theorem update_note_no_fields (db : DB) (now note_id : Nat) (d : JsonObj)
    (hd : d ≠ []) (hnf : hasUpdateField d = false) :
    (update_note db now note_id (some d)).status = 400 ∧
    (update_note db now note_id (some d)).sqlExecuted = false ∧
    (update_note db now note_id (some d)).db = db ∧
    (update_note db now note_id (some d)).connOpened = true := by
  unfold update_note
  simp [truthyObj_of_ne_nil hd, hnf]

/-- C6 amended witness at a concrete input. -/
theorem update_note_no_fields_witness :
    (([("foo", "bar")] : JsonObj) ≠ [] ∧ hasUpdateField [("foo", "bar")] = false) ∧
    ((update_note dbW 10 1 (some [("foo", "bar")])).status = 400 ∧
     (update_note dbW 10 1 (some [("foo", "bar")])).sqlExecuted = false ∧
     (update_note dbW 10 1 (some [("foo", "bar")])).db = dbW ∧
     (update_note dbW 10 1 (some [("foo", "bar")])).connOpened = true) :=
  ⟨⟨by decide, by decide⟩,
   update_note_no_fields dbW 10 1 [("foo", "bar")] (by decide) (by decide)⟩

/-- C7: at the no-valid-fields exit path of the update handler, a database
connection has been opened but is not closed before the handler returns —
the code leaves this connection open, contradicting the claimed invariant. -/
theorem update_note_leaks_connection :
    (update_note dbW 10 1 (some [("foo", "bar")])).connOpened = true ∧
    (update_note dbW 10 1 (some [("foo", "bar")])).connClosed = false := by decide

/-- C8 counterexample: a create request whose title is the empty string (content
nonempty) succeeds with 201 and stores a row, refuting the claim that empty
strings are rejected. -/
theorem create_note_empty_title_cex :
    (create_note dbW 10 (some [("title", ""), ("content", "c")])).status = 201 ∧
    (create_note dbW 10 (some [("title", ""), ("content", "c")])).db.notes.length
      = dbW.notes.length + 1 := by decide

/-- C8 amended: a note is created exactly when the title and content keys are
present — their values are not checked for non-emptiness, so empty strings are
stored as given. -/
theorem create_note_presence_only (db : DB) (now : Nat) (d : JsonObj) (t c : String)
    (ht : jsonGet d "title" = some t) (hc : jsonGet d "content" = some c) :
    (create_note db now (some d)).status = 201 ∧
    (create_note db now (some d)).db.notes =
      db.notes ++ [{ id := db.nextId, title := t, content := c
                     category := (jsonGet d "category").getD "general"
                     created_at := now, updated_at := now }] := by
  unfold create_note
  simp [truthyObj_of_ne_nil (ne_nil_of_jsonGet ht), ht, hc]

/-- C8 amended witness: even an empty title is stored as given. -/
theorem create_note_presence_only_witness :
    (jsonGet [("title", ""), ("content", "c")] "title" = some "" ∧
     jsonGet [("title", ""), ("content", "c")] "content" = some "c") ∧
    ((create_note dbW 10 (some [("title", ""), ("content", "c")])).status = 201 ∧
     (create_note dbW 10 (some [("title", ""), ("content", "c")])).db.notes =
       dbW.notes ++ [{ id := dbW.nextId, title := "", content := "c"
                       category := (jsonGet [("title", ""), ("content", "c")] "category").getD "general"
                       created_at := 10, updated_at := 10 }]) :=
  ⟨⟨by decide, by decide⟩,
   create_note_presence_only dbW 10 [("title", ""), ("content", "c")] "" "c"
     (by decide) (by decide)⟩

/-- C1: a successful update rewrites exactly the rows matching the id, and on
such a row it overwrites exactly the supplied fields, always refreshes
updated_at to the current time, and keeps id, created_at and every unsupplied
field; the next SERIAL id is untouched. -/
theorem update_note_frame (db : DB) (now note_id : Nat) (d : JsonObj)
    (h : (update_note db now note_id (some d)).status = 200) :
    (update_note db now note_id (some d)).db.notes =
      db.notes.map (fun n => if n.id = note_id then
        { id := n.id
          title := (jsonGet d "title").getD n.title
          content := (jsonGet d "content").getD n.content
          category := (jsonGet d "category").getD n.category
          created_at := n.created_at
          updated_at := now } else n) ∧
    (update_note db now note_id (some d)).db.nextId = db.nextId := by
  by_cases h1 : truthyObj (some d) = true
  · by_cases h2 : hasUpdateField d = true
    · by_cases h3 : db.notes.countP (fun n => n.id == note_id) = 0
      · exfalso
        unfold update_note at h
        simp [h1, h2, h3] at h
      · have heq : update_note db now note_id (some d) =
            { status := 200
              db := { db with
                      notes := db.notes.map
                        (fun n => if n.id == note_id then applySet d now n else n) }
              connOpened := true, connClosed := true
              sqlExecuted := true, committed := true } := by
          unfold update_note
          simp [h1, h2, h3]
        rw [heq]
        refine ⟨List.map_congr_left ?_, rfl⟩
        intro n _
        by_cases hid : n.id = note_id
        · simp [hid, applySet]
        · simp [hid, beq_iff_eq]
    · exfalso
      unfold update_note at h
      simp [h1, h2] at h
  · exfalso
    unfold update_note at h
    simp [h1] at h

/-- C1 witness: updating only the category of the stored note. -/
theorem update_note_frame_witness :
    (update_note dbW 10 1 (some [("category", "work")])).status = 200 ∧
    ((update_note dbW 10 1 (some [("category", "work")])).db.notes =
      dbW.notes.map (fun n => if n.id = 1 then
        { id := n.id
          title := (jsonGet [("category", "work")] "title").getD n.title
          content := (jsonGet [("category", "work")] "content").getD n.content
          category := (jsonGet [("category", "work")] "category").getD n.category
          created_at := n.created_at
          updated_at := 10 } else n) ∧
     (update_note dbW 10 1 (some [("category", "work")])).db.nextId = dbW.nextId) :=
  ⟨by decide, update_note_frame dbW 10 1 [("category", "work")] (by decide)⟩

/-- C2: a create request with title and content present succeeds with 201,
returns the next SERIAL id, and immediately fetching that id yields a note with
exactly the submitted title and content, the submitted category or "general"
when the key is absent, and both timestamps set to the creation time. -/
theorem create_get_roundtrip (db : DB) (now : Nat) (d : JsonObj) (t c : String)
    (hwf : db.WF) (ht : jsonGet d "title" = some t) (hc : jsonGet d "content" = some c) :
    (create_note db now (some d)).status = 201 ∧
    (create_note db now (some d)).noteId = some db.nextId ∧
    get_note (create_note db now (some d)).db db.nextId =
      { status := 200
        note := some { id := db.nextId, title := t, content := c
                       category := (jsonGet d "category").getD "general"
                       created_at := now, updated_at := now } } := by
  have hfind : db.notes.find? (fun n => n.id == db.nextId) = none := by
    rw [List.find?_eq_none]
    intro n hn
    simp only [beq_iff_eq]
    exact Nat.ne_of_lt (hwf n hn)
  unfold create_note get_note
  simp [truthyObj_of_ne_nil (ne_nil_of_jsonGet ht), ht, hc, hfind]

/-- C2 witness: creating a note without a category key and fetching it back. -/
theorem create_get_roundtrip_witness :
    ((∀ n ∈ dbW.notes, n.id < dbW.nextId) ∧
     jsonGet [("title", "U"), ("content", "V")] "title" = some "U" ∧
     jsonGet [("title", "U"), ("content", "V")] "content" = some "V") ∧
    ((create_note dbW 10 (some [("title", "U"), ("content", "V")])).status = 201 ∧
     (create_note dbW 10 (some [("title", "U"), ("content", "V")])).noteId = some dbW.nextId ∧
     get_note (create_note dbW 10 (some [("title", "U"), ("content", "V")])).db dbW.nextId =
       { status := 200
         note := some { id := dbW.nextId, title := "U", content := "V"
                        category := (jsonGet [("title", "U"), ("content", "V")] "category").getD "general"
                        created_at := 10, updated_at := 10 } }) :=
  ⟨⟨by decide, by decide, by decide⟩,
   create_get_roundtrip dbW 10 [("title", "U"), ("content", "V")] "U" "V"
     (show ∀ n ∈ dbW.notes, n.id < dbW.nextId by decide) (by decide) (by decide)⟩

/-- C4 counterexample: with one stored note of category "a", filtering by the
empty category string returns that note even though no stored note has category
equal to the empty string — the claim fails at X = the empty string. -/
theorem get_notes_category_filter_cex :
    get_notes dbW (some "") = [noteA] ∧
    dbW.notes.filter (fun (n : Note) => n.category == "") = [] ∧
    noteA.category ≠ "" := by decide

/-- C4 amended: for every nonempty category string X, listing with the filter
returns exactly the stored notes whose category equals X, ordered by created_at
descending; listing without a filter returns all notes in that order.  (For the
empty string the filter is ignored; see the counterexample.) -/
theorem get_notes_category_filter (db : DB) (X : String) (hX : X ≠ "") :
    (get_notes db (some X)).Perm (db.notes.filter (fun (n : Note) => n.category == X)) ∧
    (get_notes db (some X)).Sorted byNewest ∧
    (get_notes db none).Perm db.notes ∧
    (get_notes db none).Sorted byNewest := by
  have hrows : get_notes db (some X) =
      (db.notes.filter (fun (n : Note) => n.category == X)).insertionSort byNewest := by
    unfold get_notes
    simp [hX]
  refine ⟨?_, ?_, ?_, ?_⟩
  · rw [hrows]
    exact List.perm_insertionSort byNewest _
  · rw [hrows]
    exact List.sorted_insertionSort byNewest _
  · exact List.perm_insertionSort byNewest _
  · exact List.sorted_insertionSort byNewest _

/-- C4 amended witness at the category "a". -/
theorem get_notes_category_filter_witness :
    ("a" ≠ "") ∧
    ((get_notes dbW (some "a")).Perm (dbW.notes.filter (fun (n : Note) => n.category == "a")) ∧
     (get_notes dbW (some "a")).Sorted byNewest ∧
     (get_notes dbW none).Perm dbW.notes ∧
     (get_notes dbW none).Sorted byNewest) :=
  ⟨by decide, get_notes_category_filter dbW "a" (by decide)⟩

/-- C5: the stats total equals the sum of the per-category counts, the category
keys are exactly the category values occurring in stored rows, and every listed
count is positive (no zero-count keys). -/
theorem get_stats_spec (db : DB) :
    (get_stats db).1 = ((get_stats db).2.map Prod.snd).sum ∧
    (∀ cat : String, (∃ k ∈ (get_stats db).2, k.1 = cat) ↔ ∃ n ∈ db.notes, n.category = cat) ∧
    ∀ k ∈ (get_stats db).2, 0 < k.2 := by
  unfold get_stats
  refine ⟨?_, ?_, ?_⟩
  · simpa using (List.sum_map_count_dedup_eq_length (db.notes.map (fun n => n.category))).symm
  · intro cat
    simp only [List.mem_map, List.mem_dedup]
    constructor
    · rintro ⟨k, ⟨c2, hc2, rfl⟩, h1⟩
      obtain ⟨n, hn, hnc⟩ := hc2
      exact ⟨n, hn, by rw [hnc]; exact h1⟩
    · rintro ⟨n, hn, hnc⟩
      exact ⟨(cat, (db.notes.map (fun m => m.category)).count cat), ⟨cat, ⟨n, hn, hnc⟩, rfl⟩, rfl⟩
  · intro k hk
    simp only [List.mem_map, List.mem_dedup] at hk
    obtain ⟨c2, hc2, rfl⟩ := hk
    exact List.count_pos_iff.mpr (List.mem_map.mpr hc2)
